import Mathlib

/-!
Shallow embedding of the Ben-PH/blog repository (backend: actix-web page
responder in src/backend/src/main.rs and src/backend/src/page_gen.rs;
frontend: wasm greeter in src/frontend/src/lib.rs), with theorems settling
the specification claims about it.
-/

namespace Blog

/-! ## Backend data model

`tera::Context` is a mapping from string keys to string values; the handler
builds it with `Context::new()` followed by one `insert`.  A `TemplateSet`
stands for the loaded `tera::Tera` instance: rendering a named template with
a context either yields the rendered string or a render error. -/

/-- A tera render context: ordered key/value pairs, as built by
`Context::new()` and `insert`. -/
def Context : Type := List (String × String)

/-- `tera::Context::new()` -/
def Context.new : Context := []

/-- `ctx.insert(key, value)` -/
def Context.insert (c : Context) (key value : String) : Context :=
  (key, value) :: c

/-- The causes a tera render can fail with (missing template, template
syntax error, missing context variable); the handler never inspects these. -/
inductive RenderError : Type
  | templateNotFound (name : String)
  | syntaxError (msg : String)
  | missingContextKey (key : String)
deriving DecidableEq, Repr

/-- The loaded template set (`tera::Tera`): rendering a named template with a
context yields the rendered string or a render error. -/
def TemplateSet : Type := String → Context → Except RenderError String

/-- `TEMPLATES.render(name, ctx)` -/
def TemplateSet.render (ts : TemplateSet) (name : String) (ctx : Context) :
    Except RenderError String :=
  ts name ctx

/-- An HTTP response: status code, optional content-type header, body bytes
(modelled as a string, as in the Rust source). -/
structure Response where
  status : Nat
  contentType : Option String
  body : String
deriving DecidableEq, Repr

/-! ## HttpResponse builders

`HttpResponse::Ok()` / `HttpResponse::NotImplemented()` produce builders.
A builder carries the status and a possible accumulated construction error;
awaiting a builder finishes it: with no accumulated error it yields
`Ok(response)` with an empty body, otherwise `Err`.  `.unwrap()` on that
result is modelled as `Option`: `none` is a panic. -/

structure HttpResponseBuilder where
  status : Nat
  contentType : Option String := none
  err : Option String := none
deriving DecidableEq, Repr

/-- `HttpResponse::Ok()`: builder with status 200 and no error. -/
def HttpResponse.okBuilder : HttpResponseBuilder := { status := 200 }

/-- `HttpResponse::NotImplemented()`: builder with status 501 and no error. -/
def HttpResponse.notImplemented : HttpResponseBuilder := { status := 501 }

/-- `builder.content_type(ct)` -/
def HttpResponseBuilder.content_type (b : HttpResponseBuilder) (ct : String) :
    HttpResponseBuilder :=
  { b with contentType := some ct }

/-- `builder.body(t)`: finalizes the builder into a response with body `t`. -/
def HttpResponseBuilder.body (b : HttpResponseBuilder) (t : String) : Response :=
  { status := b.status, contentType := b.contentType, body := t }

/-- Awaiting a builder (`builder.await`): yields `Ok` of the finished
response with empty body when no construction error accumulated. -/
def HttpResponseBuilder.finish (b : HttpResponseBuilder) :
    Except String Response :=
  match b.err with
  | some e => .error e
  | none => .ok { status := b.status, contentType := b.contentType, body := "" }

/-- `Result::unwrap()`: `none` models a panic. -/
def unwrapResult (r : Except String Response) : Option Response :=
  match r with
  | .ok v => some v
  | .error _ => none

/-! ## The GET / handler (`hello` in src/backend/src/main.rs) -/

/-- The render context the handler builds:
`Context::new()` then `ctx.insert("name", "ben")`. -/
def helloContext : Context :=
  Context.new.insert "name" "ben"

/-- The `hello` handler: render `"index.html"` with the context; on `Ok(t)`
respond 200 text/html with body `t`; on `Err(_)` respond via the
`NotImplemented` builder, awaited and unwrapped.  `none` models a panic of
the `unwrap`. -/
def hello (templates : TemplateSet) : Option Response :=
  match templates.render "index.html" helloContext with
  | .ok t => some ((HttpResponse.okBuilder.content_type "text/html").body t)
  | .error _ => unwrapResult HttpResponse.notImplemented.finish

/-! ## Cookie middleware configuration (main.rs lines 19–35)

Builder chains `CookieSession::signed(&[0; 32]).name(..).path(..).secure(..)
.max_age(..)` and `CookieIdentityPolicy::new(&[0; 32]).name(..).path(..)
.max_age(..).secure(..)`.  Fields the chain does not set stay `none`
(library defaults, external to this repository); here every relevant field
is set explicitly. -/

structure CookieSessionConfig where
  key : List Nat
  name : Option String := none
  path : Option String := none
  secure : Option Bool := none
  maxAge : Option Int := none
deriving DecidableEq, Repr

/-- `CookieSession::signed(key)` -/
def CookieSession.signed (key : List Nat) : CookieSessionConfig :=
  { key := key }

/-- `.name(n)` on the session-cookie builder. -/
def CookieSessionConfig.setName (c : CookieSessionConfig) (n : String) :
    CookieSessionConfig := { c with name := some n }

/-- `.path(p)` on the session-cookie builder. -/
def CookieSessionConfig.setPath (c : CookieSessionConfig) (p : String) :
    CookieSessionConfig := { c with path := some p }

/-- `.secure(s)` on the session-cookie builder. -/
def CookieSessionConfig.setSecure (c : CookieSessionConfig) (s : Bool) :
    CookieSessionConfig := { c with secure := some s }

/-- `.max_age(a)` on the session-cookie builder. -/
def CookieSessionConfig.setMaxAge (c : CookieSessionConfig) (a : Int) :
    CookieSessionConfig := { c with maxAge := some a }

structure CookieIdentityPolicyConfig where
  key : List Nat
  name : Option String := none
  path : Option String := none
  secure : Option Bool := none
  maxAge : Option Int := none
deriving DecidableEq, Repr

/-- `CookieIdentityPolicy::new(key)` -/
def CookieIdentityPolicy.new (key : List Nat) : CookieIdentityPolicyConfig :=
  { key := key }

/-- `.name(n)` on the identity-policy builder. -/
def CookieIdentityPolicyConfig.setName (c : CookieIdentityPolicyConfig)
    (n : String) : CookieIdentityPolicyConfig := { c with name := some n }

/-- `.path(p)` on the identity-policy builder. -/
def CookieIdentityPolicyConfig.setPath (c : CookieIdentityPolicyConfig)
    (p : String) : CookieIdentityPolicyConfig := { c with path := some p }

/-- `.secure(s)` on the identity-policy builder. -/
def CookieIdentityPolicyConfig.setSecure (c : CookieIdentityPolicyConfig)
    (s : Bool) : CookieIdentityPolicyConfig := { c with secure := some s }

/-- `.max_age(a)` on the identity-policy builder. -/
def CookieIdentityPolicyConfig.setMaxAge (c : CookieIdentityPolicyConfig)
    (a : Int) : CookieIdentityPolicyConfig := { c with maxAge := some a }

/-- `&[0u8; 32]`, the literal signing key passed to both middlewares. -/
def zeroKey32 : List Nat := List.replicate 32 0

/-- The session-cookie middleware configuration, exactly as the builder
chain in `main` produces it. -/
def sessionCookie : CookieSessionConfig :=
  ((((CookieSession.signed zeroKey32).setName
      "post_session").setPath "/").setSecure false).setMaxAge (60 * 60)

/-- The identity-cookie middleware configuration, exactly as the builder
chain in `main` produces it. -/
def identityCookie : CookieIdentityPolicyConfig :=
  ((((CookieIdentityPolicy.new zeroKey32).setName
      "admin").setPath "/admin").setMaxAge (60 * 60)).setSecure false

/-! ## Process lifecycle and the lazy template set

`TEMPLATES` in src/backend/src/page_gen.rs is a `lazy_static`: `Tera::new`
runs at the first dereference, which happens inside `hello` while the first
request is being handled — after `main` has already bound the listening
socket.  On a load error the initializer prints a diagnostic to stdout and
calls `process::exit(1)`.  We model the process as the ordered list of
observable events it performs, parametrized by the outcome `Tera::new`
would have and by the number of incoming requests. -/

inductive Event : Type
  | setLogEnv
  | initLogger
  | bindSocket
  | loadTemplates
  | printDiagnostic (msg : String)
  | exitProcess (code : Nat)
  | serveRequest (n : Nat)
  | respond (n : Nat)
deriving DecidableEq, Repr

/-- Requests after the first: the template set is already initialized, so
each is served without touching the initializer. -/
def steadyRequests : Nat → Nat → List Event
  | _, 0 => []
  | i, Nat.succ k =>
    Event.serveRequest i :: Event.respond i :: steadyRequests (i + 1) k

/-- The request-serving part of the process trace.  The first request
triggers the `lazy_static` initializer (`Tera::new`); on error the process
prints the diagnostic and exits 1, on success it responds and keeps
serving. -/
def requestsTrace (tera : Except String Unit) : Nat → List Event
  | 0 => []
  | Nat.succ k =>
    Event.serveRequest 0 :: Event.loadTemplates ::
    match tera with
    | .error e =>
      [Event.printDiagnostic ("Parsing error(s): " ++ e), Event.exitProcess 1]
    | .ok _ => Event.respond 0 :: steadyRequests 1 k

/-- The full ordered event trace of the backend process: `main` sets the
log env var, initializes the logger, binds the socket, then serves
requests; the template set is only ever loaded inside the first request. -/
def processTrace (tera : Except String Unit) (numRequests : Nat) :
    List Event :=
  Event.setLogEnv :: Event.initLogger :: Event.bindSocket ::
    requestsTrace tera numRequests

/-- Number of occurrences of an event in a trace. -/
def countEvent (e : Event) : List Event → Nat
  | [] => 0
  | x :: xs => (if x = e then 1 else 0) + countEvent e xs

/-- `a` is seen before `b` is ever seen, scanning the trace left to right
(vacuously true when `b` never occurs). -/
def occursBefore (a b : Event) : List Event → Prop
  | [] => True
  | x :: xs => x ≠ b ∧ (x = a ∨ occursBefore a b xs)

instance occursBeforeDec (a b : Event) :
    ∀ tr : List Event, Decidable (occursBefore a b tr)
  | [] => Decidable.isTrue trivial
  | x :: xs =>
    have : Decidable (occursBefore a b xs) := occursBeforeDec a b xs
    inferInstanceAs (Decidable (x ≠ b ∧ (x = a ∨ occursBefore a b xs)))

/-! ## main's result (main.rs lines 18–44)

`HttpServer::new(..).bind(addr)?` propagates a bind error with `?`; the
result of `.run().await` is bound to `server` and never examined, and
`main` ends with `Ok(())`. -/

def IOError : Type := String

/-- The value `main` returns, as a function of the outcome of `bind` and of
the outcome awaiting the server's `run` would produce. -/
def mainResult (bindOutcome : Except IOError Unit)
    (runOutcome : Except IOError Unit) : Except IOError Unit :=
  match bindOutcome with
  | .error e => .error e
  | .ok _ =>
    let server := runOutcome
    Except.ok ()

/-! ## Frontend (src/frontend/src/lib.rs)

`app_main` and `greet` are modelled by the ordered list of host-visible
effects they perform. -/

/-- Levels of the `log` crate. -/
inductive LogLevel : Type
  | error | warn | info | debug | trace
deriving DecidableEq, Repr

inductive FrontendEffect : Type
  | setPanicHook
  | initLogSink (level : LogLevel)
  | logLine (level : LogLevel) (msg : String)
  | alertCall (msg : String)
deriving DecidableEq, Repr

/-- `format!("Hello, {}!", subj)` -/
def formatGreeting (subj : String) : String :=
  "Hello, " ++ subj ++ "!"

/-- `greet(subj)`: one call to the host `alert` capability with the
formatted greeting. -/
def greet (subj : String) : List FrontendEffect :=
  [FrontendEffect.alertCall (formatGreeting subj)]

/-- Modelled from the spec: `utils::set_panic_hook` lives in
src/frontend/src/utils.rs, which is not among the given source files; the
spec says app_main installs "a panic/crash hook appropriate for the host
environment".  Modelled as the single effect of installing that hook. -/
def set_panic_hook : List FrontendEffect :=
  [FrontendEffect.setPanicHook]

/-- `app_main()`: install the panic hook, init the console log sink at
debug level, emit the debug line "console log initialised", then
`greet("alert-ee")`. -/
def app_main : List FrontendEffect :=
  set_panic_hook ++
    (FrontendEffect.initLogSink LogLevel.debug ::
      FrontendEffect.logLine LogLevel.debug "console log initialised" ::
      greet "alert-ee")

/-! ## Request handling as a state transition (for determinism claims)

The only state the handler can see is the read-only template set; handling
a request maps a server state to a response and a successor state. -/

structure ServerState where
  templates : TemplateSet

/-- One request handled: the response comes from `hello` on the current
template set, and the state is passed through untouched. -/
def handleRequest (s : ServerState) : Option Response × ServerState :=
  (hello s.templates, s)

/-- A concrete template set used to instantiate universally quantified
theorems: always renders the same fixed markup. -/
def constTemplates : TemplateSet :=
  fun _ _ => Except.ok "<html>ben</html>"

/-- A concrete always-failing template set (template not found). -/
def failingTemplates : TemplateSet :=
  fun name _ => Except.error (RenderError.templateNotFound name)

/-- A second concrete failing template set (syntax error), distinct cause
from `failingTemplates`. -/
def syntaxFailTemplates : TemplateSet :=
  fun _ _ => Except.error (RenderError.syntaxError "unexpected token")

/-- The fixed 501 empty-bodied response of the error branch. -/
def response501 : Response :=
  { status := 501, contentType := none, body := "" }

end Blog

/-! # Theorems settling the claims -/

namespace Blog

/-- C1: the GET / handler builds a context with exactly the one entry
"name" ↦ "ben", renders "index.html" with it, and when rendering yields
`t` it responds 200, content-type text/html, body exactly `t`. -/
theorem C1_hello_success :
    helloContext = [("name", "ben")] ∧
    ∀ (templates : TemplateSet) (t : String),
      templates.render "index.html" helloContext = Except.ok t →
      hello templates =
        some { status := 200, contentType := some "text/html", body := t } := by
  refine ⟨rfl, ?_⟩
  intro templates t h
  unfold hello
  rw [h]
  rfl

/-- Witness for C1 at the concrete template set `constTemplates`. -/
theorem C1_hello_success_witness :
    hello constTemplates =
      some { status := 200, contentType := some "text/html",
             body := "<html>ben</html>" } :=
  C1_hello_success.2 constTemplates "<html>ben</html>" rfl

/-- C2: every render error (regardless of its cause) yields the same fixed
response — status 501 and empty body — and any two erroring template sets
produce identical responses. -/
theorem C2_error_uniform :
    (∀ (templates : TemplateSet) (e : RenderError),
      templates.render "index.html" helloContext = Except.error e →
      hello templates = some response501) ∧
    ∀ (t₁ t₂ : TemplateSet) (e₁ e₂ : RenderError),
      t₁.render "index.html" helloContext = Except.error e₁ →
      t₂.render "index.html" helloContext = Except.error e₂ →
      hello t₁ = hello t₂ := by
  constructor
  · intro templates e h
    unfold hello
    rw [h]
    rfl
  · intro t₁ t₂ e₁ e₂ h₁ h₂
    unfold hello
    rw [h₁, h₂]

/-- Witness for C2: two concrete template sets failing with distinct error
causes both map to the 501 empty response. -/
theorem C2_error_uniform_witness :
    hello failingTemplates = some response501 ∧
    hello failingTemplates = hello syntaxFailTemplates :=
  ⟨C2_error_uniform.1 failingTemplates
      (RenderError.templateNotFound "index.html") rfl,
    C2_error_uniform.2 failingTemplates syntaxFailTemplates
      (RenderError.templateNotFound "index.html")
      (RenderError.syntaxError "unexpected token") rfl rfl⟩

/-- C3 counterexample: with an invalid template directory and one incoming
request, the process trace opens the listening socket (bindSocket occurs),
and the template load does NOT precede the first request — the first
request is served (begins) strictly before the templates are loaded,
refuting both "loaded eagerly before the first request can be served" and
"the listening socket is never opened". -/
theorem C3_counterexample :
    Event.bindSocket ∈ processTrace (Except.error "oops") 1 ∧
    ¬ occursBefore Event.loadTemplates (Event.serveRequest 0)
        (processTrace (Except.error "oops") 1) := by
  refine ⟨?_, ?_⟩
  · decide
  · decide

/-- Lemma: the steady-state requests never touch the template initializer. -/
theorem steadyRequests_no_load (i k : Nat) :
    countEvent Event.loadTemplates (steadyRequests i k) = 0 := by
  induction k generalizing i with
  | zero => rfl
  | succ k ih => simp [steadyRequests, countEvent, ih]

/-- C3 amended: the template set is loaded at most once overall and exactly
once as soon as any request arrives — lazily, during the first request,
after the socket was bound; and when the template directory is invalid the
process prints the diagnostic to stdout and exits with status 1 (the socket
having already been opened). -/
theorem C3_lazy_load (tera : Except String Unit) (n : Nat) :
    countEvent Event.loadTemplates (processTrace tera n) ≤ 1 ∧
    (1 ≤ n → countEvent Event.loadTemplates (processTrace tera n) = 1) ∧
    (1 ≤ n → occursBefore Event.bindSocket Event.loadTemplates
        (processTrace tera n)) ∧
    (1 ≤ n → occursBefore (Event.serveRequest 0) Event.loadTemplates
        (processTrace tera n)) ∧
    ∀ e, tera = Except.error e → 1 ≤ n →
      Event.printDiagnostic ("Parsing error(s): " ++ e) ∈ processTrace tera n ∧
      Event.exitProcess 1 ∈ processTrace tera n ∧
      Event.bindSocket ∈ processTrace tera n := by
  have hone : ∀ k, countEvent Event.loadTemplates
      (processTrace tera (Nat.succ k)) = 1 := by
    intro k
    cases tera with
    | error e => simp [processTrace, requestsTrace, countEvent]
    | ok u => simp [processTrace, requestsTrace, countEvent,
        steadyRequests_no_load]
  refine ⟨?_, ?_, ?_, ?_, ?_⟩
  · cases n with
    | zero => simp [processTrace, requestsTrace, countEvent]
    | succ k => rw [hone k]
  · intro hn
    cases n with
    | zero => omega
    | succ k => exact hone k
  · intro hn
    cases n with
    | zero => omega
    | succ k =>
      cases tera with
      | error e => simp [processTrace, requestsTrace, occursBefore]
      | ok u => simp [processTrace, requestsTrace, occursBefore]
  · intro hn
    cases n with
    | zero => omega
    | succ k =>
      cases tera with
      | error e => simp [processTrace, requestsTrace, occursBefore]
      | ok u => simp [processTrace, requestsTrace, occursBefore]
  · intro e he hn
    subst he
    cases n with
    | zero => omega
    | succ k =>
      refine ⟨?_, ?_, ?_⟩ <;> simp [processTrace, requestsTrace]

/-- Witness for C3 amended at an invalid template set and one request. -/
theorem C3_lazy_load_witness :
    countEvent Event.loadTemplates (processTrace (Except.error "oops") 1) = 1 ∧
    Event.exitProcess 1 ∈ processTrace (Except.error "oops") 1 ∧
    Event.bindSocket ∈ processTrace (Except.error "oops") 1 :=
  ⟨(C3_lazy_load (Except.error "oops") 1).2.1 (by decide),
    ((C3_lazy_load (Except.error "oops") 1).2.2.2.2 "oops" rfl (by decide)).2.1,
    ((C3_lazy_load (Except.error "oops") 1).2.2.2.2 "oops" rfl (by decide)).2.2⟩

/-- C4: for every subject `s`, greet passes to the host display capability
exactly the single string "Hello, " ++ s ++ "!", and in particular
greet "alert-ee" displays "Hello, alert-ee!". -/
theorem C4_greet_exact :
    (∀ s : String,
      greet s = [FrontendEffect.alertCall ("Hello, " ++ s ++ "!")]) ∧
    greet "alert-ee" = [FrontendEffect.alertCall "Hello, alert-ee!"] :=
  ⟨fun _ => rfl, rfl⟩

/-- C5: the handler is deterministic in the template set and passes the
server state through unchanged — two invocations on states carrying the
same template set produce identical responses, and neither mutates any
state. -/
theorem C5_handler_deterministic (s₁ s₂ : ServerState)
    (h : s₁.templates = s₂.templates) :
    (handleRequest s₁).1 = (handleRequest s₂).1 ∧
    (handleRequest s₁).2 = s₁ ∧
    (handleRequest s₂).2 = s₂ := by
  refine ⟨?_, rfl, rfl⟩
  unfold handleRequest
  rw [h]

/-- Witness for C5 at two states sharing the concrete template set. -/
theorem C5_handler_deterministic_witness :
    (handleRequest ⟨constTemplates⟩).1 = (handleRequest ⟨constTemplates⟩).1 ∧
    (handleRequest ⟨constTemplates⟩).2 = ⟨constTemplates⟩ ∧
    (handleRequest ⟨constTemplates⟩).2 = ⟨constTemplates⟩ :=
  C5_handler_deterministic ⟨constTemplates⟩ ⟨constTemplates⟩ rfl

/-- C6: app_main performs, in order, exactly: install the panic hook,
initialize the debug-level log sink, emit one debug log line confirming
initialization, and call greet on the literal "alert-ee" — and nothing
else. -/
theorem C6_app_main_sequence :
    app_main =
      [FrontendEffect.setPanicHook,
       FrontendEffect.initLogSink LogLevel.debug,
       FrontendEffect.logLine LogLevel.debug "console log initialised",
       FrontendEffect.alertCall "Hello, alert-ee!"] := rfl

/-- C7: the session cookie is signed, named "post_session", path "/",
secure false, max-age 3600 seconds; the identity cookie is signed, named
"admin", path "/admin", with the same expiry and the same non-secure
flag. -/
theorem C7_cookie_config :
    sessionCookie.name = some "post_session" ∧
    sessionCookie.path = some "/" ∧
    sessionCookie.secure = some false ∧
    sessionCookie.maxAge = some 3600 ∧
    identityCookie.name = some "admin" ∧
    identityCookie.path = some "/admin" ∧
    identityCookie.maxAge = sessionCookie.maxAge ∧
    identityCookie.secure = sessionCookie.secure :=
  ⟨rfl, rfl, rfl, rfl, rfl, rfl, rfl, rfl⟩

/-- C8: both middlewares are signed with the same hardcoded constant
all-zero 32-byte key. -/
theorem C8_zero_key :
    sessionCookie.key = List.replicate 32 0 ∧
    identityCookie.key = List.replicate 32 0 ∧
    sessionCookie.key = identityCookie.key :=
  ⟨rfl, rfl, rfl⟩

/-- C9: the 501 builder finishes successfully (its unwrap never panics),
so the handler is total: for every template set it returns a response, on
both the success and the error branch. -/
theorem C9_no_panic (templates : TemplateSet) :
    HttpResponse.notImplemented.finish = Except.ok response501 ∧
    (hello templates).isSome = true := by
  refine ⟨rfl, ?_⟩
  unfold hello
  match templates.render "index.html" helloContext with
  | .ok t => rfl
  | .error e => rfl

/-- C10: once bind succeeds main returns Ok(()) whatever the server run's
outcome is (the run result is discarded), and a bind failure is propagated
as main's error. -/
theorem C10_run_result_discarded :
    (∀ runOutcome : Except IOError Unit,
      mainResult (Except.ok ()) runOutcome = Except.ok ()) ∧
    ∀ (e : IOError) (runOutcome : Except IOError Unit),
      mainResult (Except.error e) runOutcome = Except.error e :=
  ⟨fun _ => rfl, fun _ _ => rfl⟩

end Blog
